import Mathlib

/-!
Verification of the offscreen UI render synchronization engine
(`hifi::qml::impl::SharedObject`, from
src/libraries/qml/src/qml/impl/SharedObject.cpp) against its
natural-language specification.

The embedding models the mutable fields of `SharedObject` as a record,
each member function as a state transformer, and the single-slot
frame mailbox (`_latestTextureAndFence`) together with its publish
(`updateTextureAndFence`) and fetch (`fetchTexture`) operations.
GPU handles are plain naturals; texture id 0 is the null sentinel the
code uses for "no frame", exactly as in the source.
-/

namespace Hifi

/-- A texture/fence pair (`SharedObject::TextureAndFence`); texture id `0`
is the null sentinel the code uses for an empty slot. -/
structure TextureAndFence where
  texture : Nat
  fence : Nat
deriving DecidableEq, Repr

/-- The `TextureAndFence{ 0, 0 }` sentinel value. -/
def nullFrame : TextureAndFence := ⟨0, 0⟩

/-- Embeds `SharedObject::updateTextureAndFence` (publish): under the mutex,
if the most recent texture was unused (nonzero id), it is released back to the
texture pool and the slot zeroed; then the new pair is stored.  Returns the
new slot contents and the list of frames released to the pool by this call. -/
def updateTextureAndFence (latest newTextureAndFence : TextureAndFence) :
    TextureAndFence × List TextureAndFence :=
  let recycled : List TextureAndFence :=
    if latest.texture ≠ 0 then [latest] else []
  (newTextureAndFence, recycled)

/-- Embeds `SharedObject::fetchTexture`: under the mutex, if the slot holds
the null sentinel, report nothing pending; otherwise swap the slot with the
sentinel and hand the stored pair to the caller. -/
def fetchTexture (latest : TextureAndFence) :
    TextureAndFence × Option TextureAndFence :=
  if latest.texture = 0 then (latest, none)
  else (nullFrame, some latest)

/-- One interaction with the frame mailbox: the render thread publishing a
finished frame, or the consumer fetching. -/
inductive MailboxEvent where
  | publish (tf : TextureAndFence)
  | fetch
deriving DecidableEq, Repr

/-- A frame published by the render thread always carries a real
(nonzero) texture id. -/
def goodEvent : MailboxEvent → Bool
  | .publish tf => tf.texture != 0
  | .fetch => true

/-- History of a run of the code-level mailbox: current slot contents, the
results handed back by each fetch, and every frame recycled to the pool. -/
structure MailboxTrace where
  latest : TextureAndFence
  fetched : List (Option TextureAndFence)
  released : List TextureAndFence
deriving DecidableEq, Repr

/-- Run a single mailbox event through the code-level operations. -/
def mailboxStep (t : MailboxTrace) : MailboxEvent → MailboxTrace
  | .publish tf =>
    let r := updateTextureAndFence t.latest tf
    { t with latest := r.1, released := t.released ++ r.2 }
  | .fetch =>
    let r := fetchTexture t.latest
    { t with latest := r.1, fetched := t.fetched ++ [r.2] }

/-- Run a sequence of mailbox events through the code-level operations. -/
def mailboxRun (t : MailboxTrace) (evs : List MailboxEvent) : MailboxTrace :=
  evs.foldl mailboxStep t

/-- History of a run of the specification-level mailbox, which stores the
pending frame as an `Option`. -/
structure SpecMailboxTrace where
  pending : Option TextureAndFence
  fetched : List (Option TextureAndFence)
  released : List TextureAndFence
deriving DecidableEq, Repr

/-- The mailbox contract stated from the spec's words: publish recycles any
previous unclaimed frame to the pool before storing the new one (latest
wins, never queued); fetch atomically takes the pending frame, if any,
leaving the mailbox empty. -/
def specMailboxStep (t : SpecMailboxTrace) : MailboxEvent → SpecMailboxTrace
  | .publish tf =>
    match t.pending with
    | some old => { t with pending := some tf, released := t.released ++ [old] }
    | none => { t with pending := some tf }
  | .fetch =>
    { t with pending := none, fetched := t.fetched ++ [t.pending] }

/-- Run a sequence of mailbox events through the specification mailbox. -/
def specMailboxRun (t : SpecMailboxTrace) (evs : List MailboxEvent) :
    SpecMailboxTrace :=
  evs.foldl specMailboxStep t

/-- Abstraction from the code's sentinel encoding to the spec's optional
pending frame. -/
def mailboxAbs (latest : TextureAndFence) : Option TextureAndFence :=
  if latest.texture = 0 then none else some latest

/-- Correspondence between a code-level and a spec-level mailbox history. -/
def mailboxRel (t : MailboxTrace) (st : SpecMailboxTrace) : Prop :=
  mailboxAbs t.latest = st.pending ∧ t.fetched = st.fetched ∧
    t.released = st.released


/-- Logical size of the render target (`QSize`, integer width/height). -/
structure QSize where
  w : Int
  h : Int
deriving DecidableEq, Repr

/-- The mutable fields of `SharedObject` relevant to the synchronization
engine, together with ghost fields recording externally visible effects
(posted Quit commands, thread join, size propagation, `deleteLater`). -/
structure SharedObjectState where
  /-- `_paused` -/
  paused : Bool
  /-- `_quit` -/
  quit : Bool
  /-- `_syncRequested` -/
  syncRequested : Bool
  /-- `_renderRequested` -/
  renderRequested : Bool
  /-- `_size` -/
  size : QSize
  /-- `_latestTextureAndFence`, the single mailbox slot -/
  latestTextureAndFence : TextureAndFence
  /-- `_lastRenderTime`, microseconds (quint64) -/
  lastRenderTime : Nat
  /-- `_maxFps` -/
  maxFps : Nat
  /-- whether `_rootItem` is non-null -/
  rootItem : Bool
  /-- `_quickWindow` geometry, set by `setGeometry` -/
  windowGeometry : QSize
  /-- size of `_quickWindow->contentItem()` -/
  contentItemSize : QSize
  /-- size of `_rootItem` (meaningful when `rootItem` is true) -/
  rootItemSize : QSize
  /-- the `surfaceSize` context property -/
  surfaceSizeProp : QSize
  /-- whether `_renderTimer` exists and is running -/
  timerActive : Bool
  /-- ghost: `deleteLater` was requested on the SharedObject -/
  deleted : Bool
  /-- ghost: number of Quit commands posted to the render object; the only
  post site (destroy, line 160) always uses `Qt::HighEventPriority` -/
  quitPosts : Nat
  /-- ghost: `_renderThread->wait()` has returned, i.e. the render thread
  has fully exited -/
  threadStopped : Bool
deriving DecidableEq, Repr

/-- Embeds `SharedObject::requestRender` (lines 322-328): if a render is
already queued do nothing, otherwise set `_renderRequested`.  Note the
source takes no lock here. -/
def requestRender (s : SharedObjectState) : SharedObjectState :=
  if s.renderRequested then s
  else { s with renderRequested := true }

/-- Embeds `SharedObject::requestRenderSync` (lines 330-341): return at once
when quitting; otherwise set `_syncRequested` under the mutex and delegate
to `requestRender`. -/
def requestRenderSync (s : SharedObjectState) : SharedObjectState :=
  if s.quit then s
  else requestRender { s with syncRequested := true }

/-- Embeds `SharedObject::getSize`. -/
def getSize (s : SharedObjectState) : QSize := s.size

/-- Embeds `SharedObject::setSize` (lines 260-280): no-op when the size is
unchanged; otherwise store the new size under the mutex, propagate it to the
window geometry, the content item, and (when a root item exists) the
`surfaceSize` context property and the root item, then call
`requestRenderSync`. -/
def setSize (s : SharedObjectState) (size : QSize) : SharedObjectState :=
  if getSize s = size then s
  else
    let s1 := { s with size := size }
    let s2 := { s1 with windowGeometry := size, contentItemSize := size }
    let s3 :=
      if s2.rootItem then { s2 with surfaceSizeProp := size, rootItemSize := size }
      else s2
    requestRenderSync s3

/-- Embeds `SharedObject::pause` (lines 446-448): sets `_paused` (no lock). -/
def pause (s : SharedObjectState) : SharedObjectState :=
  { s with paused := true }

/-- Embeds `SharedObject::resume` (lines 450-453): clears `_paused` and calls
`requestRender`. -/
def resume (s : SharedObjectState) : SharedObjectState :=
  requestRender { s with paused := false }

/-- Result of `SharedObject::preRender`, run on the render thread:
the state after the call, the boolean return value (`true` means the caller
may go on to produce a frame), and whether `wake()` was invoked on the
rendezvous condition variable. -/
structure PreRenderResult where
  state : SharedObjectState
  proceed : Bool
  woke : Bool
deriving DecidableEq, Repr

/-- Embeds `SharedObject::preRender` (lines 282-305), the normal path with
nsight disabled.  `syncResult` is the outcome of the external
`_renderControl->sync()` call.  When paused: wake any pending sync waiter and
return false.  When a sync is requested: perform the sync, wake the waiter,
and on failure return false with `_syncRequested` left set; on success clear
`_syncRequested` and return true. -/
def preRender (s : SharedObjectState) (syncResult : Bool) : PreRenderResult :=
  if s.paused then
    { state := s, proceed := false, woke := s.syncRequested }
  else if s.syncRequested then
    if syncResult then
      { state := { s with syncRequested := false }, proceed := true, woke := true }
    else
      { state := s, proceed := false, woke := true }
  else
    { state := s, proceed := true, woke := false }

/-- Result of `SharedObject::onRender`, run on the owning thread: the state
after the call, whether an `OffscreenEvent::Render` command was posted to the
render object, and whether the owning thread blocked on the condition
variable for the sync rendezvous. -/
structure OnRenderResult where
  state : SharedObjectState
  postedRender : Bool
  waited : Bool
deriving DecidableEq, Repr

/-- Embeds `SharedObject::onRender` (lines 385-403): return at once when
quitting; otherwise post a Render command to the render object (waiting on
the rendezvous when a sync is requested) and clear `_renderRequested` under
the mutex. -/
def onRender (s : SharedObjectState) : OnRenderResult :=
  if s.quit then { state := s, postedRender := false, waited := false }
  else if s.syncRequested then
    { state := { s with renderRequested := false }, postedRender := true,
      waited := true }
  else
    { state := { s with renderRequested := false }, postedRender := true,
      waited := false }

/-- `USECS_PER_SECOND` from NumericalConstants.h. -/
def USECS_PER_SECOND : Nat := 1000000

/-- quint64 subtraction `usecTimestampNow() - _lastRenderTime`, modulo 2^64
as in the source's unsigned arithmetic (arguments below 2^64). -/
def usec64Sub (a b : Nat) : Nat := (a + 2 ^ 64 - b % 2 ^ 64) % 2 ^ 64

/-- Embeds `SharedObject::onTimer` (lines 405-429): if no render is
requested, or the mailbox slot already holds an unclaimed frame, or less
than `USECS_PER_SECOND / _maxFps` microseconds have elapsed since the last
render, do nothing; otherwise post a Render command (the returned boolean).
`offscreenTextures.report()` only emits statistics and touches none of the
modelled state.  The state is returned unchanged in every branch, as in the
source. -/
def onTimer (s : SharedObjectState) (now : Nat) : SharedObjectState × Bool :=
  if !s.renderRequested then (s, false)
  else if s.latestTextureAndFence.texture ≠ 0 then (s, false)
  else
    let minRenderInterval := USECS_PER_SECOND / s.maxFps
    let lastInterval := usec64Sub now s.lastRenderTime
    if lastInterval < minRenderInterval then (s, false)
    else (s, true)

/-- Embeds `SharedObject::destroy` (lines 137-167): return at once when
already quitting; when no root item was ever set, just request deletion;
otherwise set `_paused` (no lock), stop and delete the render timer,
disconnect signals, then under the mutex set `_quit` and post one Quit
command at `Qt::HighEventPriority`, and finally block until the render
thread has exited. -/
def destroy (s : SharedObjectState) : SharedObjectState :=
  if s.quit then s
  else if !s.rootItem then { s with deleted := true }
  else
    let s1 := { s with paused := true }
    let s2 := if s1.timerActive then { s1 with timerActive := false } else s1
    let s3 := { s2 with quit := true, quitPosts := s2.quitPosts + 1 }
    { s3 with threadStopped := true }

/-- A baseline running state: engine created at 100x100 with a root item,
not paused, not quitting, nothing requested, mailbox empty. -/
def exampleState : SharedObjectState where
  paused := false
  quit := false
  syncRequested := false
  renderRequested := false
  size := ⟨100, 100⟩
  latestTextureAndFence := nullFrame
  lastRenderTime := 0
  maxFps := 60
  rootItem := true
  windowGeometry := ⟨100, 100⟩
  contentItemSize := ⟨100, 100⟩
  rootItemSize := ⟨100, 100⟩
  surfaceSizeProp := ⟨100, 100⟩
  timerActive := true
  deleted := false
  quitPosts := 0
  threadStopped := false

/-- The baseline state after shutdown has begun (`_quit` set). -/
def quitState : SharedObjectState := { exampleState with quit := true }

/-- The SyncState fields and Size of the spec's data model. -/
inductive SyncField where
  | pausedF
  | quittingF
  | syncRequestedF
  | renderRequestedF
  | sizeF
deriving DecidableEq, Repr

/-- One write to a SyncState field or to Size, tagged with whether a
`QMutexLocker` on `_mutex` is in scope at the write in the source. -/
structure FieldWrite where
  field : SyncField
  locked : Bool
deriving DecidableEq, Repr

/-- Writes performed by `SharedObject::requestRender` (lines 322-328):
`_renderRequested = true` with no `QMutexLocker` in the function. -/
def requestRenderWrites (renderRequested : Bool) : List FieldWrite :=
  if renderRequested then [] else [⟨.renderRequestedF, false⟩]

/-- Writes performed by `SharedObject::requestRenderSync` (lines 330-341):
`_syncRequested = true` inside a locked block, then the writes of
`requestRender` (outside any lock). -/
def requestRenderSyncWrites (quit renderRequested : Bool) : List FieldWrite :=
  if quit then []
  else ⟨.syncRequestedF, true⟩ :: requestRenderWrites renderRequested

/-- Writes performed by `SharedObject::pause` (lines 446-448): `_paused`
with no lock. -/
def pauseWrites : List FieldWrite := [⟨.pausedF, false⟩]

/-- Writes performed by `SharedObject::resume` (lines 450-453): `_paused`
with no lock, then the writes of `requestRender`. -/
def resumeWrites (renderRequested : Bool) : List FieldWrite :=
  ⟨.pausedF, false⟩ :: requestRenderWrites renderRequested

/-- Writes performed by `SharedObject::setSize` (lines 260-280): when the
size changes, `_size` inside a locked block, then the writes of
`requestRenderSync`. -/
def setSizeWrites (sizeUnchanged quit renderRequested : Bool) :
    List FieldWrite :=
  if sizeUnchanged then []
  else ⟨.sizeF, true⟩ :: requestRenderSyncWrites quit renderRequested

/-- Writes performed by `SharedObject::destroy` (lines 137-167): on the
full shutdown path, `_paused = true` before any lock is taken (line 148),
then `_quit = true` inside a locked block (line 159). -/
def destroyWrites (quit rootItem : Bool) : List FieldWrite :=
  if quit then []
  else if !rootItem then []
  else [⟨.pausedF, false⟩, ⟨.quittingF, true⟩]

/-- Writes performed by `SharedObject::preRender` (lines 282-305): the whole
body runs under `QMutexLocker`; `_syncRequested = false` happens only after
a successful sync. -/
def preRenderWrites (paused syncRequested syncResult : Bool) :
    List FieldWrite :=
  if paused then []
  else if syncRequested && syncResult then [⟨.syncRequestedF, true⟩]
  else []

/-- Writes performed by `SharedObject::onRender` (lines 385-403):
`_renderRequested = false` with the `QMutexLocker` held. -/
def onRenderWrites (quit : Bool) : List FieldWrite :=
  if quit then [] else [⟨.renderRequestedF, true⟩]

/-- All SyncState/Size writes of the owning-thread and render-thread entry
points, at the branch conditions given by the boolean parameters. -/
def allWrites (quit rootItem paused syncRequested renderRequested
    sizeUnchanged syncResult : Bool) : List FieldWrite :=
  requestRenderWrites renderRequested ++
    requestRenderSyncWrites quit renderRequested ++
    pauseWrites ++
    resumeWrites renderRequested ++
    setSizeWrites sizeUnchanged quit renderRequested ++
    destroyWrites quit rootItem ++
    preRenderWrites paused syncRequested syncResult ++
    onRenderWrites quit

/-- Modelled from the spec: the phase of the render-thread worker
(`RenderEventHandler`, whose source is not under src/).  Spec §4.3: on a
Render command, after a successful pre-render, the worker acquires exactly
one Frame from the TexturePool sized to the current Size, draws into it,
publishes it into the FrameMailbox and returns to Ready; it never holds
more than the one Frame it is currently drawing into. -/
inductive WorkerPhase where
  | ready
  | rendering (frame : TextureAndFence)
deriving DecidableEq, Repr

/-- Global ownership state of the engine: the mailbox slot
(`_latestTextureAndFence`), the worker phase, the frames owned by the
TexturePool, and the frames claimed by the consumer via fetch. -/
structure EngineState where
  mailbox : TextureAndFence
  worker : WorkerPhase
  poolFree : List TextureAndFence
  consumer : List TextureAndFence
deriving DecidableEq, Repr

/-- Number of frames held by the render thread (0 or 1 by construction). -/
def inFlightCount (s : EngineState) : Nat :=
  match s.worker with
  | .ready => 0
  | .rendering _ => 1

/-- Number of unclaimed frames in the mailbox slot (0 or 1: one slot). -/
def mailboxCount (s : EngineState) : Nat :=
  if s.mailbox.texture = 0 then 0 else 1

/-- Frames live outside the TexturePool that the engine itself holds:
in flight on the render thread or unclaimed in the mailbox. -/
def engineLive (s : EngineState) : Nat :=
  inFlightCount s + mailboxCount s

/-- One step of the engine.  `acquire` and `publish` follow the worker
contract of spec §4.3 (the worker source is not under src/); `publish` and
`fetchStep` use the embedded `updateTextureAndFence` and `fetchTexture`;
`releaseStep` is the consumer returning a claimed frame to the pool. -/
inductive EngineStep : EngineState → EngineState → Prop where
  | acquire (s : EngineState) (tf : TextureAndFence) :
      s.worker = .ready → tf.texture ≠ 0 →
      EngineStep s
        { s with
          worker := WorkerPhase.rendering tf,
          poolFree := s.poolFree.erase tf }
  | publish (s : EngineState) (tf : TextureAndFence) :
      s.worker = .rendering tf →
      EngineStep s
        { s with
          worker := WorkerPhase.ready,
          mailbox := (updateTextureAndFence s.mailbox tf).1,
          poolFree := s.poolFree ++ (updateTextureAndFence s.mailbox tf).2 }
  | fetchStep (s : EngineState) :
      EngineStep s
        { s with
          mailbox := (fetchTexture s.mailbox).1,
          consumer := s.consumer ++ ((fetchTexture s.mailbox).2).toList }
  | releaseStep (s : EngineState) (tf : TextureAndFence) :
      tf ∈ s.consumer →
      EngineStep s
        { s with
          consumer := s.consumer.erase tf,
          poolFree := s.poolFree ++ [tf] }

/-- Reachable engine states: start with an empty mailbox, an idle worker and
some pool contents, then take any number of engine steps. -/
inductive Reachable : EngineState → Prop where
  | init (pool : List TextureAndFence) :
      Reachable { mailbox := nullFrame, worker := .ready,
                  poolFree := pool, consumer := [] }
  | step (s t : EngineState) : Reachable s → EngineStep s t → Reachable t

/-- The entry points of SharedObject that contain a `qFatal` check or are
claimed to, with the data each check inspects.  Graphics contexts are
opaque ids. -/
inductive ApiCall where
  | setSharedContext (currentContext sharedContext : Nat)
  | initializeRenderControl (shareContext registeredSharedContext : Nat)
  | create (rootItemSet : Bool)
  | setRootItem (rootItemSet : Bool)
deriving DecidableEq, Repr

/-- Whether each entry point aborts the process (`qFatal`), from the source:
`setSharedContext` aborts when the context being registered is not the
current context (line 49); `initializeRenderControl` aborts when the render
context's share context differs from the registered shared context
(line 233); `create` aborts when `_rootItem` is already set (line 101);
`setRootItem` (lines 119-135) performs no such check. -/
def callAborts : ApiCall → Bool
  | .setSharedContext currentContext sharedContext =>
    currentContext != sharedContext
  | .initializeRenderControl shareContext registeredSharedContext =>
    shareContext != registeredSharedContext
  | .create rootItemSet => rootItemSet
  | .setRootItem _ => false

/-- The abort conditions exactly as the claim states them: (1) share-context
mismatch at render-thread initialization, and (2) root assignment performed
when a root item already exists (`create` guards this; `setRootItem` is the
root assignment itself). -/
def claimedAborts : ApiCall → Bool
  | .setSharedContext _ _ => false
  | .initializeRenderControl shareContext registeredSharedContext =>
    shareContext != registeredSharedContext
  | .create rootItemSet => rootItemSet
  | .setRootItem rootItemSet => rootItemSet

/-- The baseline state with a render requested and the last render one
second in the past. -/
def pacingState : SharedObjectState :=
  { exampleState with renderRequested := true }

/-- The baseline state, paused, with a render requested. -/
def pausedPendingState : SharedObjectState :=
  { exampleState with paused := true, renderRequested := true }

/-- The baseline state with a sync requested. -/
def syncPendingState : SharedObjectState :=
  { exampleState with syncRequested := true }

lemma mailboxStep_rel (t : MailboxTrace) (st : SpecMailboxTrace)
    (ev : MailboxEvent) (hrel : mailboxRel t st)
    (hev : goodEvent ev = true) :
    mailboxRel (mailboxStep t ev) (specMailboxStep st ev) := by
  obtain ⟨h1, h2, h3⟩ := hrel
  cases ev with
  | publish tf =>
    simp only [goodEvent, bne_iff_ne, ne_eq] at hev
    by_cases h : t.latest.texture = 0
    · have hp : st.pending = none := by
        rw [← h1]; simp [mailboxAbs, h]
      simp [mailboxRel, mailboxStep, specMailboxStep, updateTextureAndFence,
        mailboxAbs, h, hp, h2, h3, hev]
    · have hp : st.pending = some t.latest := by
        rw [← h1]; simp [mailboxAbs, h]
      simp [mailboxRel, mailboxStep, specMailboxStep, updateTextureAndFence,
        mailboxAbs, h, hp, h2, h3, hev]
  | fetch =>
    by_cases h : t.latest.texture = 0
    · have hp : st.pending = none := by
        rw [← h1]; simp [mailboxAbs, h]
      simp [mailboxRel, mailboxStep, specMailboxStep, fetchTexture,
        mailboxAbs, h, hp, h2, h3]
    · have hp : st.pending = some t.latest := by
        rw [← h1]; simp [mailboxAbs, h]
      simp [mailboxRel, mailboxStep, specMailboxStep, fetchTexture,
        mailboxAbs, nullFrame, h, hp, h2, h3]

lemma mailboxRun_rel (evs : List MailboxEvent) (t : MailboxTrace)
    (st : SpecMailboxTrace) (hrel : mailboxRel t st)
    (hall : ∀ ev ∈ evs, goodEvent ev = true) :
    mailboxRel (mailboxRun t evs) (specMailboxRun st evs) := by
  induction evs generalizing t st with
  | nil => exact hrel
  | cons ev evs ih =>
    have hstep := mailboxStep_rel t st ev hrel (hall ev (by simp))
    exact ih _ _ hstep (fun e he => hall e (by simp [he]))

/-- Claim C1: FrameMailbox latest-wins contract: for every sequence of publishes
(`updateTextureAndFence`) and fetches (`fetchTexture`) of real frames,
starting from the empty slot, the code-level mailbox refines the
specification mailbox: the slot always holds exactly the most recently
published frame not yet fetched (so at most one unclaimed frame exists),
each fetch returns that frame and leaves the slot empty (`none` when nothing
is pending), and each publish recycles the previous unclaimed frame to the
texture pool before storing the new one. -/
theorem frameMailbox_latest_wins (evs : List MailboxEvent)
    (hall : ∀ ev ∈ evs, goodEvent ev = true) :
    mailboxAbs (mailboxRun ⟨nullFrame, [], []⟩ evs).latest =
      (specMailboxRun ⟨none, [], []⟩ evs).pending ∧
    (mailboxRun ⟨nullFrame, [], []⟩ evs).fetched =
      (specMailboxRun ⟨none, [], []⟩ evs).fetched ∧
    (mailboxRun ⟨nullFrame, [], []⟩ evs).released =
      (specMailboxRun ⟨none, [], []⟩ evs).released :=
  mailboxRun_rel evs ⟨nullFrame, [], []⟩ ⟨none, [], []⟩
    ⟨by simp [mailboxAbs, nullFrame], rfl, rfl⟩ hall

/-- Witness for C1 at a concrete event sequence: two publishes, then two
fetches. -/
theorem frameMailbox_latest_wins_witness :
    (∀ ev ∈ [MailboxEvent.publish ⟨1, 10⟩, MailboxEvent.publish ⟨2, 20⟩,
        MailboxEvent.fetch, MailboxEvent.fetch], goodEvent ev = true) ∧
    (mailboxAbs (mailboxRun ⟨nullFrame, [], []⟩
        [MailboxEvent.publish ⟨1, 10⟩, MailboxEvent.publish ⟨2, 20⟩,
          MailboxEvent.fetch, MailboxEvent.fetch]).latest =
      (specMailboxRun ⟨none, [], []⟩
        [MailboxEvent.publish ⟨1, 10⟩, MailboxEvent.publish ⟨2, 20⟩,
          MailboxEvent.fetch, MailboxEvent.fetch]).pending ∧
    (mailboxRun ⟨nullFrame, [], []⟩
        [MailboxEvent.publish ⟨1, 10⟩, MailboxEvent.publish ⟨2, 20⟩,
          MailboxEvent.fetch, MailboxEvent.fetch]).fetched =
      (specMailboxRun ⟨none, [], []⟩
        [MailboxEvent.publish ⟨1, 10⟩, MailboxEvent.publish ⟨2, 20⟩,
          MailboxEvent.fetch, MailboxEvent.fetch]).fetched ∧
    (mailboxRun ⟨nullFrame, [], []⟩
        [MailboxEvent.publish ⟨1, 10⟩, MailboxEvent.publish ⟨2, 20⟩,
          MailboxEvent.fetch, MailboxEvent.fetch]).released =
      (specMailboxRun ⟨none, [], []⟩
        [MailboxEvent.publish ⟨1, 10⟩, MailboxEvent.publish ⟨2, 20⟩,
          MailboxEvent.fetch, MailboxEvent.fetch]).released) :=
  ⟨by decide, frameMailbox_latest_wins _ (by decide)⟩

/-- Claim C2: sync-failure recovery: when the render thread's pre-render step
finds `syncRequested` set (and the engine is not paused) and the scene-graph
sync call fails, `preRender` still wakes the waiting owning thread
(`woke = true`), returns false so no frame is produced this cycle, and
leaves the state unchanged — in particular `syncRequested` stays set, so the
sync is retried on the next Render. -/
theorem syncFailure_recovery (s : SharedObjectState)
    (hp : s.paused = false) (hs : s.syncRequested = true) :
    preRender s false = { state := s, proceed := false, woke := true } := by
  simp [preRender, hp, hs]

/-- Witness for C2 at a concrete state with a pending sync. -/
theorem syncFailure_recovery_witness :
    preRender syncPendingState false =
      { state := syncPendingState, proceed := false, woke := true } :=
  syncFailure_recovery syncPendingState rfl rfl

/-- Counterexample to claim C3 as stated: not every SyncState/Size write is
performed under the mutex.  At the branch conditions below, the collected
writes include `requestRender` setting `_renderRequested`, `pause` and
`destroy` setting `_paused` — all without the lock. -/
theorem lockDiscipline_counterexample :
    (allWrites false true false false false false true).all
      (fun w => w.locked) = false := by decide

/-- Claim C3 as amended: writes to `quitting`, `syncRequested` and Size
always happen under the mutex, and `onRender` clears `renderRequested` under
the mutex; but `requestRender` sets `renderRequested` without the mutex, and
`paused` is written without the mutex (by `pause`, `resume` and
`destroy`). -/
theorem lockDiscipline_amended :
    ∀ (quit rootItem paused syncRequested renderRequested sizeUnchanged
        syncResult : Bool),
      ((allWrites quit rootItem paused syncRequested renderRequested
          sizeUnchanged syncResult).filter
        (fun w => w.field == SyncField.quittingF ||
          w.field == SyncField.syncRequestedF ||
          w.field == SyncField.sizeF)).all (fun w => w.locked) = true ∧
      (pauseWrites.all fun w => !w.locked) = true ∧
      ((resumeWrites renderRequested).filter
        (fun w => w.field == SyncField.pausedF)).all
          (fun w => !w.locked) = true ∧
      ((requestRenderWrites renderRequested).all fun w => !w.locked) = true ∧
      ((onRenderWrites quit).all fun w => w.locked) = true ∧
      ((destroyWrites quit rootItem).filter
        (fun w => w.field == SyncField.pausedF)).all
          (fun w => !w.locked) = true := by
  decide

/-- Counterexample to claim C4 as stated: in a state where shutdown has
begun (`_quit` set), `setSize` with a different size still updates Size and
propagates it, but `requestRenderSync` returns immediately, so no
sync-bearing render request is triggered (`syncRequested` and
`renderRequested` do not become set). -/
theorem resize_counterexample :
    (setSize quitState ⟨200, 150⟩).size = ⟨200, 150⟩ ∧
    (setSize quitState ⟨200, 150⟩).syncRequested = false ∧
    (setSize quitState ⟨200, 150⟩).renderRequested = false := by decide

/-- Claim C4 as amended: `setSize` with the current size changes nothing;
with a different size it updates Size, propagates it to the window, the
content item and (when a root item exists) the root item and the
`surfaceSize` property, and — unless quitting — triggers exactly one
sync-bearing render request (`syncRequested` and `renderRequested` both
set); when quitting, Size is still updated but neither flag changes. -/
theorem resize_behaviour (s : SharedObjectState) (sz : QSize) :
    (getSize s = sz → setSize s sz = s) ∧
    (getSize s ≠ sz → s.quit = false →
      (setSize s sz).size = sz ∧
      (setSize s sz).windowGeometry = sz ∧
      (setSize s sz).contentItemSize = sz ∧
      (s.rootItem = true → (setSize s sz).rootItemSize = sz ∧
        (setSize s sz).surfaceSizeProp = sz) ∧
      (setSize s sz).syncRequested = true ∧
      (setSize s sz).renderRequested = true) ∧
    (getSize s ≠ sz → s.quit = true →
      (setSize s sz).size = sz ∧
      (setSize s sz).syncRequested = s.syncRequested ∧
      (setSize s sz).renderRequested = s.renderRequested) := by
  refine ⟨fun h => by simp [setSize, h], fun h hq => ?_, fun h hq => ?_⟩
  · simp only [getSize, ne_eq] at h
    cases hr : s.rootItem <;>
      cases hrr : s.renderRequested <;>
        simp [setSize, getSize, requestRenderSync, requestRender, h, hq,
          hr, hrr]
  · simp only [getSize, ne_eq] at h
    cases hr : s.rootItem <;>
      simp [setSize, getSize, requestRenderSync, requestRender, h, hq, hr]

/-- Witness for C4 at concrete states and sizes. -/
theorem resize_behaviour_witness :
    setSize exampleState exampleState.size = exampleState ∧
    (setSize exampleState ⟨200, 150⟩).syncRequested = true ∧
    (setSize quitState ⟨200, 150⟩).syncRequested = quitState.syncRequested :=
  ⟨(resize_behaviour exampleState exampleState.size).1 rfl,
   ((resize_behaviour exampleState ⟨200, 150⟩).2.1
      (by decide) rfl).2.2.2.2.1,
   ((resize_behaviour quitState ⟨200, 150⟩).2.2 (by decide) rfl).2.1⟩

/-- Claim C5: shutdown idempotence: calling `destroy` twice produces exactly
the same end state as calling it once, and on a live engine (root item set,
not yet quitting) a single call sets the quitting flag, posts the Quit
command (always at `Qt::HighEventPriority`) exactly once, marks itself
paused, and blocks until the render thread has stopped; the second call is
a no-op, so no Quit is re-posted and no pooled resource can be released a
second time. -/
theorem shutdown_idempotent (s : SharedObjectState) :
    destroy (destroy s) = destroy s ∧
    (s.rootItem = true → s.quit = false →
      (destroy s).quit = true ∧
      (destroy s).quitPosts = s.quitPosts + 1 ∧
      (destroy s).threadStopped = true ∧
      (destroy s).paused = true) := by
  constructor
  · by_cases hq : s.quit
    · simp [destroy, hq]
    · by_cases hr : s.rootItem
      · by_cases ht : s.timerActive <;> simp [destroy, hq, hr, ht]
      · simp [destroy, hq, hr]
  · intro hr hq
    by_cases ht : s.timerActive <;> simp [destroy, hq, hr, ht]

/-- Witness for C5 at the baseline live state. -/
theorem shutdown_idempotent_witness :
    destroy (destroy exampleState) = destroy exampleState ∧
    (destroy exampleState).quit = true ∧
    (destroy exampleState).quitPosts = exampleState.quitPosts + 1 ∧
    (destroy exampleState).threadStopped = true :=
  ⟨(shutdown_idempotent exampleState).1,
   ((shutdown_idempotent exampleState).2 rfl rfl).1,
   ((shutdown_idempotent exampleState).2 rfl rfl).2.1,
   ((shutdown_idempotent exampleState).2 rfl rfl).2.2.1⟩

lemma usec64Sub_eq (a b : Nat) (hba : b ≤ a) (ha : a < 2 ^ 64) :
    usec64Sub a b = a - b := by
  simp only [usec64Sub]
  omega

/-- Claim C6: frame-pacing tick guard: on a timer tick (with a positive
`maxFps` and a monotone microsecond clock), the state is never changed, and
a Render command is posted exactly when a render is requested, the mailbox
slot is empty, and at least `USECS_PER_SECOND / maxFps` microseconds (the
code's reading of 1/maxFps seconds) have elapsed since the last render;
in every other case the tick is a no-op. -/
theorem framePacing_tick_guard (s : SharedObjectState) (now : Nat)
    (hfps : 0 < s.maxFps) (hmono : s.lastRenderTime ≤ now)
    (hnow : now < 2 ^ 64) :
    (onTimer s now).1 = s ∧
    ((onTimer s now).2 = true ↔
      (s.renderRequested = true ∧ s.latestTextureAndFence.texture = 0 ∧
        USECS_PER_SECOND / s.maxFps ≤ now - s.lastRenderTime)) := by
  have hsub : usec64Sub now s.lastRenderTime = now - s.lastRenderTime :=
    usec64Sub_eq now s.lastRenderTime hmono hnow
  cases hrr : s.renderRequested with
  | false => simp [onTimer, hrr]
  | true =>
    by_cases hl : s.latestTextureAndFence.texture = 0
    · by_cases hiv :
        usec64Sub now s.lastRenderTime < USECS_PER_SECOND / s.maxFps
      · rw [hsub] at hiv
        constructor
        · simp [onTimer, hrr, hl, hsub, hiv]
        · simp [onTimer, hrr, hl, hsub, hiv] <;> omega
      · rw [hsub] at hiv
        constructor
        · simp [onTimer, hrr, hl, hsub, hiv]
        · simp [onTimer, hrr, hl, hsub, hiv] <;> omega
    · simp [onTimer, hrr, hl]

/-- Witness for C6 at a concrete requested-render state one second in. -/
theorem framePacing_tick_guard_witness :
    (onTimer pacingState 1000000).1 = pacingState ∧
    ((onTimer pacingState 1000000).2 = true ↔
      (pacingState.renderRequested = true ∧
        pacingState.latestTextureAndFence.texture = 0 ∧
        USECS_PER_SECOND / pacingState.maxFps ≤
          1000000 - pacingState.lastRenderTime)) :=
  framePacing_tick_guard pacingState 1000000 (by decide) (by decide)
    (by decide)

/-- Claim C7: bounded live frames: in every reachable state of the engine,
the number of frames live outside the TexturePool on the engine's side is
at most 2 — at most one in flight on the render thread and at most one
unclaimed in the single mailbox slot. -/
theorem boundedLiveFrames (s : EngineState) (h : Reachable s) :
    engineLive s ≤ 2 ∧ inFlightCount s ≤ 1 ∧ mailboxCount s ≤ 1 := by
  have h1 : inFlightCount s ≤ 1 := by
    cases hw : s.worker <;> simp [inFlightCount, hw]
  have h2 : mailboxCount s ≤ 1 := by
    by_cases hm : s.mailbox.texture = 0 <;> simp [mailboxCount, hm]
  refine ⟨?_, h1, h2⟩
  simp only [engineLive]
  omega

/-- Witness for C7 at a state reached by acquiring a frame from the pool
and publishing it into the mailbox. -/
theorem boundedLiveFrames_witness :
    engineLive { mailbox := ⟨1, 1⟩, worker := WorkerPhase.ready,
                 poolFree := [], consumer := [] } ≤ 2 ∧
    inFlightCount { mailbox := ⟨1, 1⟩, worker := WorkerPhase.ready,
                    poolFree := [], consumer := [] } ≤ 1 ∧
    mailboxCount { mailbox := ⟨1, 1⟩, worker := WorkerPhase.ready,
                   poolFree := [], consumer := [] } ≤ 1 :=
  boundedLiveFrames _
    (Reachable.step _ _
      (Reachable.step _ _ (Reachable.init [⟨1, 1⟩])
        (EngineStep.acquire _ ⟨1, 1⟩ rfl (by decide)))
      (EngineStep.publish _ ⟨1, 1⟩ rfl))

/-- Counterexample to claim C8 as stated: the abort conditions are not
exactly the two claimed ones.  `setSharedContext` aborts when the context
being registered is not current (a third condition outside the claim), and
`setRootItem` — the actual root assignment — does not abort when a root
item already exists (only `create` checks that). -/
theorem fatalAbort_counterexample :
    callAborts (ApiCall.setSharedContext 1 2) = true ∧
    claimedAborts (ApiCall.setSharedContext 1 2) = false ∧
    callAborts (ApiCall.setRootItem true) = false ∧
    claimedAborts (ApiCall.setRootItem true) = true := by decide

/-- Claim C8 as amended: the process aborts exactly when (1) at render-thread
initialization the render context's share context differs from the
registered shared context, (2) `create` is invoked when a root item already
exists, or (3) `setSharedContext` registers a context that is not the
current context; `setRootItem` itself performs no existing-root check. -/
theorem fatalAbort_conditions (c : ApiCall) :
    callAborts c = true ↔
      ((∃ share reg, c = ApiCall.initializeRenderControl share reg ∧
          share ≠ reg) ∨
       c = ApiCall.create true ∨
       (∃ cur shared, c = ApiCall.setSharedContext cur shared ∧
          cur ≠ shared)) := by
  cases c with
  | setSharedContext cur shared =>
    simp [callAborts]
    refine ⟨fun a => ⟨cur, shared, ⟨rfl, rfl⟩, a⟩, ?_⟩
    rintro ⟨x, y, ⟨rfl, rfl⟩, hne⟩
    exact hne
  | initializeRenderControl share reg =>
    simp [callAborts]
    refine ⟨fun a => ⟨share, reg, ⟨rfl, rfl⟩, a⟩, ?_⟩
    rintro ⟨x, y, ⟨rfl, rfl⟩, hne⟩
    exact hne
  | create rootItemSet => simp [callAborts]
  | setRootItem rootItemSet => simp [callAborts]

/-- Counterexample to claim C9 as stated: Render commands are still issued
while paused.  In a paused state with a render requested, the timer tick
still posts a Render command (`onTimer` never consults `_paused`), and the
owning thread's `onRender` still posts a Render command to the render
object. -/
theorem pause_counterexample :
    pausedPendingState.paused = true ∧
    (onTimer pausedPendingState 1000000).2 = true ∧
    (onRender pausedPendingState).postedRender = true := by decide

/-- Claim C9 as amended: `pause` only sets the paused flag; Render commands
may still be posted, but the render thread's `preRender` then refuses to
produce a frame while paused, and if a sync was pending it wakes the waiter
on the condition variable so no thread stays blocked; `resume` clears the
paused flag and issues a fresh render request, leaving `renderRequested`
set. -/
theorem pause_resume_behaviour (s : SharedObjectState) :
    (pause s).paused = true ∧
    (pause s).renderRequested = s.renderRequested ∧
    (preRender (pause s) true).proceed = false ∧
    (preRender (pause s) false).proceed = false ∧
    (s.syncRequested = true → (preRender (pause s) true).woke = true) ∧
    (resume s).paused = false ∧
    (resume s).renderRequested = true := by
  refine ⟨rfl, rfl, by simp [preRender, pause], by simp [preRender, pause],
    fun h => by simp [preRender, pause, h], ?_, ?_⟩ <;>
    cases hrr : s.renderRequested <;> simp [resume, requestRender, hrr]

/-- Witness for C9 at a concrete state with a pending sync. -/
theorem pause_resume_behaviour_witness :
    (pause syncPendingState).paused = true ∧
    (preRender (pause syncPendingState) true).woke = true ∧
    (resume syncPendingState).renderRequested = true :=
  ⟨(pause_resume_behaviour syncPendingState).1,
   (pause_resume_behaviour syncPendingState).2.2.2.2.1 rfl,
   (pause_resume_behaviour syncPendingState).2.2.2.2.2.2⟩

/-- Claim C10: once the quitting flag is set, `requestRenderSync` returns
immediately and changes nothing — `syncRequested` and `renderRequested`
are left untouched and no Render command results — so scene-changed
notifications arriving after shutdown has begun are silently dropped. -/
theorem quitDropsRenderSync (s : SharedObjectState) (h : s.quit = true) :
    requestRenderSync s = s := by
  simp [requestRenderSync, h]

/-- Witness for C10 at the quitting baseline state. -/
theorem quitDropsRenderSync_witness :
    requestRenderSync quitState = quitState :=
  quitDropsRenderSync quitState rfl

end Hifi
